import Mathlib

/-!
Shallow embedding of the multi-agent report-generation workflow
(`modules/agent_state.py`, `modules/agent_nodes.py`, `modules/agent_graph.py`).

External collaborators (market-data fetch, chart rendering, the LLM call
and its client construction) are modelled as oracle functions bundled in
an `Env`; a Python exception raised by a collaborator is an `Except.error`.
Python dicts are association lists in insertion order; Python floats that
only ever hold exact small decimals are rationals.
-/

namespace ResearchFlow

/-- A module's fetched data: mapping section name to a numeric series
(the core never inspects it beyond emptiness / counting). -/
abbrev ModuleData : Type := List (String × List Int)

/-- `AgentMessage` from `agent_state.py`: a record exchanged between agents. -/
structure AgentMessage where
  from_agent : String
  to_agent : String
  message_type : String
  content : String
  timestamp : String
  metadata : List (String × String)
  deriving DecidableEq

/-- `AgentState` from `agent_state.py`: the shared state record threaded
through the whole workflow. -/
structure AgentState where
  task_id : String
  report_period : String
  started_at : String
  current_step : String
  raw_data : List (String × ModuleData)
  processed_data : List (String × String)
  chart_paths : List (String × List String)
  draft_content : List (String × String)
  reviewed_content : List (String × String)
  final_content : List (String × String)
  messages : List AgentMessage
  debate_rounds : Nat
  consensus_reached : Bool
  quality_score : Rat
  issues : List String
  approval_status : String
  pdf_path : Option String
  errors : List String
  deriving DecidableEq

/-- `create_initial_state` from `agent_state.py`. The Python code derives
`task_id` and `started_at` from the wall clock; the clock readings are
explicit inputs here. -/
def create_initial_state (task_id started_at report_period : String) : AgentState :=
  { task_id := task_id
    report_period := report_period
    started_at := started_at
    current_step := "initialization"
    raw_data := []
    processed_data := []
    chart_paths := []
    draft_content := []
    reviewed_content := []
    final_content := []
    messages := []
    debate_rounds := 0
    consensus_reached := false
    quality_score := 0
    issues := []
    approval_status := "pending"
    pdf_path := none
    errors := [] }

/-- `calculate_quality_score` from `agent_state.py`. The Python float
arithmetic here is exact (integer penalties subtracted from 100.0, one
exact division for the mean length), so rationals model it faithfully. -/
def calculate_quality_score (state : AgentState) : Rat :=
  let score : Rat := 100
  -- 数据完整性检查 (-20): the `if/elif` chain subtracting 20 or 10
  let score := score -
    (if state.raw_data.isEmpty then 20
     else if state.raw_data.length < 2 then 10
     else 0)
  -- 图表生成检查 (-20)
  let score := score -
    (if state.chart_paths.isEmpty then 20
     else if (state.chart_paths.map (fun p => p.2.length)).sum < 2 then 10
     else 0)
  -- 文案质量检查 (-30); `avg_length = sum(...) / max(len(final_content), 1)`
  let score := score -
    (if state.final_content.isEmpty then 30
     else if ((state.final_content.map (fun p => (p.2.length : Rat))).sum /
         (max state.final_content.length 1 : Nat)) < 100 then 20
     else if ((state.final_content.map (fun p => (p.2.length : Rat))).sum /
         (max state.final_content.length 1 : Nat)) < 200 then 10
     else 0)
  -- 问题数量检查 (-30)
  let num_issues := state.issues.length
  let score := score -
    (if num_issues > 5 then 30
     else if num_issues > 2 then 15
     else if num_issues > 0 then 5
     else 0)
  max 0 score

/-- Rendering of the Python `f"{quality_score:.1f}"` for the values
`calculate_quality_score` can produce (always integral rationals). -/
def fmtScore1 (q : Rat) : String := toString q.num ++ ".0"

/-- The `request` message emitted by `chief_editor_node` in its
initialization branch. -/
def requestMessage (report_period : String) : AgentMessage :=
  { from_agent := "chief_editor"
    to_agent := "data_engineer"
    message_type := "request"
    content := "请获取 " ++ report_period ++ " 的所有数据"
    timestamp := ""
    metadata := [] }

/-- `chief_editor_node` from `agent_nodes.py`: task assignment on
`initialization`, quality review on `review`, identity otherwise. -/
def chief_editor_node (state : AgentState) : AgentState :=
  if state.current_step = "initialization" then
    { state with
        current_step := "data_collection"
        messages := state.messages ++ [requestMessage state.report_period] }
  else if state.current_step = "review" then
    let quality_score := calculate_quality_score state
    if quality_score ≥ 80 then
      { state with
          quality_score := quality_score
          approval_status := "approved"
          consensus_reached := true
          final_content := state.reviewed_content
          current_step := "finalization" }
    else
      { state with
          quality_score := quality_score
          approval_status := "rejected"
          issues := state.issues ++ ["质量评分不足: " ++ fmtScore1 quality_score ++ "/100"]
          debate_rounds := state.debate_rounds + 1
          current_step := "finalization" }
  else
    state

/-- `data_engineer_node` from `agent_nodes.py`; `fetch` is the external
`fetch_module_data` collaborator (the hard-coded module list is
`["macro"]`). A raised exception is `Except.error`. -/
def data_engineer_node (fetch : String → Except String ModuleData)
    (state : AgentState) : AgentState :=
  match fetch "macro" with
  | Except.ok d =>
      { state with
          raw_data := [("macro", d)]
          current_step := "chart_generation" }
  | Except.error e =>
      { state with
          errors := state.errors ++ ["数据获取失败: " ++ e]
          issues := state.issues ++ ["数据获取失败: " ++ e] }

/-- The chart loop of `chartist_node`: renders each module in dict order;
the first raised exception aborts the loop and discards the partial dict. -/
def chartsFor (render : String → ModuleData → Except String (List String)) :
    List (String × ModuleData) → Except String (List (String × List String))
  | [] => Except.ok []
  | (m, d) :: rest =>
      match render m d with
      | Except.error e => Except.error e
      | Except.ok cs =>
          match chartsFor render rest with
          | Except.error e => Except.error e
          | Except.ok more => Except.ok ((m, cs) :: more)

/-- `chartist_node` from `agent_nodes.py`; `render` is the external
`generate_module_charts` collaborator. -/
def chartist_node (render : String → ModuleData → Except String (List String))
    (state : AgentState) : AgentState :=
  match chartsFor render state.raw_data with
  | Except.ok cp =>
      { state with
          chart_paths := cp
          current_step := "content_generation" }
  | Except.error e =>
      { state with
          errors := state.errors ++ ["图表生成失败: " ++ e]
          issues := state.issues ++ ["图表生成失败: " ++ e] }

/-- The mock narrative used by `senior_analyst_node` when no LLM key is set. -/
def mockMacroText : String :=
  "宏观分析文案（Mock）- 请配置 OPENAI_API_KEY 或 GEMINI_API_KEY 以使用真实 LLM 生成"

/-- The external collaborators and environment of one workflow run. -/
structure Env where
  fetch : String → Except String ModuleData
  render : String → ModuleData → Except String (List String)
  hasGemini : Bool
  hasOpenai : Bool
  llmInit : Except String Unit
  llmGen : ModuleData → Except String String

/-- `senior_analyst_node` from `agent_nodes.py`. `env.llmInit` models the
`LLMWriter` constructor (which runs before the macro-data check and may
raise); `env.llmGen` models `writer.generate("macro_analysis", ...)` on the
prepared macro context. A raised exception lands in the `except` branch,
which appends to `errors` and `issues` and leaves `current_step` alone. -/
def senior_analyst_node (env : Env) (state : AgentState) : AgentState :=
  if !(env.hasOpenai || env.hasGemini) then
    { state with
        draft_content := [("macro_analysis", mockMacroText)]
        reviewed_content := [("macro_analysis", mockMacroText)]
        current_step := "review" }
  else
    match env.llmInit with
    | Except.error e =>
        { state with
            errors := state.errors ++ ["文案生成失败: " ++ e]
            issues := state.issues ++ ["文案生成失败: " ++ e] }
    | Except.ok _ =>
        let macro_data := (state.raw_data.lookup "macro").getD ([] : List (String × List Int))
        if macro_data.isEmpty then
          { state with
              issues := state.issues ++ ["缺少宏观数据，无法生成文案"]
              current_step := "review" }
        else
          match env.llmGen macro_data with
          | Except.ok content =>
              { state with
                  draft_content := [("macro_analysis", content)]
                  reviewed_content := [("macro_analysis", content)]
                  current_step := "review" }
          | Except.error e =>
              { state with
                  errors := state.errors ++ ["文案生成失败: " ++ e]
                  issues := state.issues ++ ["文案生成失败: " ++ e] }

/-- The `rebuttal` message emitted by `debate_node`. -/
def rebuttalMessage (issues : List String) : AgentMessage :=
  { from_agent := "senior_analyst"
    to_agent := "chief_editor"
    message_type := "rebuttal"
    content := "已针对以下问题进行改进: " ++ String.intercalate ", " (issues.take 3)
    timestamp := ""
    metadata := [] }

/-- `debate_node` from `agent_nodes.py`. -/
def debate_node (state : AgentState) : AgentState :=
  if state.issues.length = 0 then
    { state with consensus_reached := true }
  else if state.debate_rounds ≥ 2 then
    { state with consensus_reached := true }
  else
    { state with
        messages := state.messages ++ [rebuttalMessage state.issues]
        issues := []
        debate_rounds := state.debate_rounds + 1
        current_step := "review" }

/-- `route_after_chief_editor` from `agent_nodes.py`. -/
def route_after_chief_editor (state : AgentState) : String :=
  if state.current_step = "data_collection" then "data_engineer"
  else if state.current_step = "finalization" then
    if state.consensus_reached then "end" else "debate"
  else "end"

/-- `route_after_debate` from `agent_nodes.py`. -/
def route_after_debate (state : AgentState) : String :=
  if state.consensus_reached then "chief_editor" else "senior_analyst"

/-- The five graph nodes registered in `create_workflow` (`agent_graph.py`). -/
inductive Node where
  | chief_editor
  | data_engineer
  | chartist
  | senior_analyst
  | debate
  deriving DecidableEq

/-- Runs one node's function on the state. -/
def applyNode (env : Env) : Node → AgentState → AgentState
  | Node.chief_editor, s => chief_editor_node s
  | Node.data_engineer, s => data_engineer_node env.fetch s
  | Node.chartist, s => chartist_node env.render s
  | Node.senior_analyst, s => senior_analyst_node env s
  | Node.debate, s => debate_node s

/-- The edges of `create_workflow` (`agent_graph.py`): conditional edges
after `chief_editor` and `debate`, fixed edges otherwise; `none` is END. -/
def routeNext : Node → AgentState → Option Node
  | Node.chief_editor, s =>
      if route_after_chief_editor s = "data_engineer" then some Node.data_engineer
      else if route_after_chief_editor s = "debate" then some Node.debate
      else none
  | Node.data_engineer, _ => some Node.chartist
  | Node.chartist, _ => some Node.senior_analyst
  | Node.senior_analyst, _ => some Node.chief_editor
  | Node.debate, s =>
      if route_after_debate s = "chief_editor" then some Node.chief_editor
      else some Node.senior_analyst

/-- `Exec env n s t` holds when the graph driver, started at node `n` on
state `s`, produces `t` as the output of some executed node (this is the
set of states the run passes through after its initial state). -/
inductive Exec (env : Env) : Node → AgentState → AgentState → Prop where
  | here (n : Node) (s : AgentState) : Exec env n s (applyNode env n s)
  | next (n : Node) (s : AgentState) (n2 : Node) (t : AgentState)
      (hr : routeNext n (applyNode env n s) = some n2)
      (ht : Exec env n2 (applyNode env n s) t) : Exec env n s t

/-! ### Spec-side restatement of the scoring function (for the C4 refinement) -/

/-- Spec §4.6 wording: raw-data penalty (missing entirely −20, fewer than
2 modules −10). -/
def spec_raw_data_penalty (s : AgentState) : Rat :=
  if s.raw_data.isEmpty then 20
  else if s.raw_data.length < 2 then 10
  else 0

/-- Spec §4.6 wording: chart penalty (missing entirely −20, total chart
count below 2 −10). -/
def spec_chart_penalty (s : AgentState) : Rat :=
  if s.chart_paths.isEmpty then 20
  else if (s.chart_paths.map (fun p => p.2.length)).sum < 2 then 10
  else 0

/-- Spec §4.6 wording: content penalty (missing entirely −30, mean section
length below 100 −20, mean in [100,200) −10). -/
def spec_content_penalty (s : AgentState) : Rat :=
  if s.final_content.isEmpty then 30
  else if (((s.final_content.map (fun p => (p.2.length : Rat))).sum) /
      (s.final_content.length : Rat)) < 100 then 20
  else if (((s.final_content.map (fun p => (p.2.length : Rat))).sum) /
      (s.final_content.length : Rat)) < 200 then 10
  else 0

/-- Spec §4.6 wording: issue-count penalty (more than 5 −30, in (2,5] −15,
in (0,2] −5). -/
def spec_issues_penalty (s : AgentState) : Rat :=
  if s.issues.length > 5 then 30
  else if s.issues.length > 2 then 15
  else if s.issues.length > 0 then 5
  else 0

/-- Spec §4.6 wording: 100 minus the four penalties, clamped below at 0. -/
def spec_quality_score (s : AgentState) : Rat :=
  max 0 (100 - spec_raw_data_penalty s - spec_chart_penalty s
    - spec_content_penalty s - spec_issues_penalty s)

/-! ### Inductive invariant for the debate-round bound -/

/-- Inductive invariant carried through the graph execution: the round
counter is at most 3, is at most 2 whenever another review pass can still
happen, is 0 in the initial phase, and the Debate node only ever runs on a
`finalization` state. -/
def Inv (n : Node) (s : AgentState) : Prop :=
  s.debate_rounds ≤ 3 ∧
  (s.current_step = "review" → s.debate_rounds ≤ 2) ∧
  (s.current_step = "initialization" → s.debate_rounds = 0) ∧
  (s.current_step = "data_collection" → s.debate_rounds ≤ 2) ∧
  ((n = Node.data_engineer ∨ n = Node.chartist ∨ n = Node.senior_analyst) →
    s.debate_rounds ≤ 2) ∧
  (n = Node.debate → s.current_step = "finalization")

/-! ### Concrete runs and states used in witnesses and counterexamples -/

/-- An environment where every collaborator succeeds and no LLM key is
configured: data fetch returns one series, chart rendering returns two
charts, the analyst takes the mock-narrative path. -/
def envMock : Env :=
  { fetch := fun _ => Except.ok [("dxy", [1, 2])]
    render := fun _ _ => Except.ok ["a", "b"]
    hasGemini := false
    hasOpenai := false
    llmInit := Except.ok ()
    llmGen := fun _ => Except.ok "" }

/-- The initial state of the concrete run examined below. -/
def initW : AgentState := create_initial_state "t" "0" "p"

/-- State after the Chief Editor initialization step. -/
def wf1 : AgentState :=
  { initW with current_step := "data_collection", messages := [requestMessage "p"] }

/-- State after the Data Engineer step. -/
def wf2 : AgentState :=
  { wf1 with raw_data := [("macro", [("dxy", [1, 2])])], current_step := "chart_generation" }

/-- State after the Chartist step. -/
def wf3 : AgentState :=
  { wf2 with chart_paths := [("macro", ["a", "b"])], current_step := "content_generation" }

/-- State after the Senior Analyst step (mock narrative path). -/
def wf4 : AgentState :=
  { wf3 with draft_content := [("macro_analysis", mockMacroText)]
             reviewed_content := [("macro_analysis", mockMacroText)]
             current_step := "review" }

/-- The issue text appended by the Reviewer when the score is 60. -/
def rejectIssue60 : String := "质量评分不足: " ++ fmtScore1 60 ++ "/100"

/-- State after the first review pass (score 60, rejected, round 1). -/
def wf5 : AgentState :=
  { wf4 with quality_score := 60, approval_status := "rejected",
             issues := [rejectIssue60], debate_rounds := 1, current_step := "finalization" }

/-- State after the Debate step (round incremented to 2, issues cleared). -/
def wf6 : AgentState :=
  { wf5 with messages := wf5.messages ++ [rebuttalMessage [rejectIssue60]],
             issues := [], debate_rounds := 2, current_step := "review" }

/-- State after the second Senior Analyst pass. -/
def wf7 : AgentState :=
  { wf6 with draft_content := [("macro_analysis", mockMacroText)],
             reviewed_content := [("macro_analysis", mockMacroText)], current_step := "review" }

/-- State after the second review pass: the Reviewer rejects again and
pushes `debate_rounds` from 2 to 3. -/
def wf8 : AgentState :=
  { wf7 with quality_score := 60, approval_status := "rejected",
             issues := [rejectIssue60], debate_rounds := 3, current_step := "finalization" }

/-- The concrete state of the score-determinism example: 1 raw module, no
charts, one 50-character final section, 1 issue. -/
def scoreExampleState : AgentState :=
  { create_initial_state "t" "0" "p" with
      raw_data := [("macro", [("dxy", [1])])]
      chart_paths := []
      final_content := [("macro_analysis",
        "aaaaaaaaaaaaaaaaaaaaaaaaaaaaaaaaaaaaaaaaaaaaaaaaaa")]
      issues := ["issue one"] }

/-- A concrete state entering the Reviewer in the `review` phase. -/
def stC3 : AgentState := { create_initial_state "t" "0" "p" with current_step := "review" }

/-- An environment with a Gemini key configured whose LLM call raises. -/
def envC6 : Env :=
  { fetch := fun _ => Except.ok [("dxy", [1])]
    render := fun _ _ => Except.ok ["c"]
    hasGemini := true
    hasOpenai := false
    llmInit := Except.ok ()
    llmGen := fun _ => Except.error "LLM timeout" }

/-- A concrete `content_generation` state with macro data present. -/
def stC6 : AgentState :=
  { create_initial_state "t" "0" "p" with
      current_step := "content_generation"
      raw_data := [("macro", [("dxy", [1])])] }

/-! ### Helper lemmas -/

lemma max_one_length_of_not_isEmpty {α : Type} {l : List α} (h : ¬ l.isEmpty) :
    max l.length 1 = l.length := by
  cases l with
  | nil => simp at h
  | cons a t => simp [Nat.max_eq_left, Nat.succ_le_succ]

lemma calculate_quality_score_eq_spec (s : AgentState) :
    calculate_quality_score s = spec_quality_score s := by
  by_cases hfc : s.final_content.isEmpty
  · simp only [calculate_quality_score, spec_quality_score, spec_raw_data_penalty,
      spec_chart_penalty, spec_content_penalty, spec_issues_penalty, hfc, if_true]
  · have hlen : max s.final_content.length 1 = s.final_content.length :=
      max_one_length_of_not_isEmpty hfc
    simp only [calculate_quality_score, spec_quality_score, spec_raw_data_penalty,
      spec_chart_penalty, spec_content_penalty, spec_issues_penalty, hfc, if_false, hlen]

lemma spec_quality_score_nonneg (s : AgentState) : 0 ≤ spec_quality_score s :=
  le_max_left _ _

lemma spec_quality_score_le_100 (s : AgentState) : spec_quality_score s ≤ 100 := by
  have h1 : 0 ≤ spec_raw_data_penalty s := by
    unfold spec_raw_data_penalty; split_ifs <;> norm_num
  have h2 : 0 ≤ spec_chart_penalty s := by
    unfold spec_chart_penalty; split_ifs <;> norm_num
  have h3 : 0 ≤ spec_content_penalty s := by
    unfold spec_content_penalty; split_ifs <;> norm_num
  have h4 : 0 ≤ spec_issues_penalty s := by
    unfold spec_issues_penalty; split_ifs <;> norm_num
  unfold spec_quality_score
  rw [max_le_iff]
  constructor <;> linarith
lemma inv_step (env : Env) (n : Node) (s : AgentState) (h : Inv n s) :
    (applyNode env n s).debate_rounds ≤ 3 ∧
    ∀ n2, routeNext n (applyNode env n s) = some n2 → Inv n2 (applyNode env n s) := by
  obtain ⟨h1, h2, h3, h4, h5, h6⟩ := h
  cases n with
  | chief_editor =>
      simp only [applyNode, chief_editor_node]
      by_cases hi : s.current_step = "initialization"
      · have hr0 := h3 hi
        rw [if_pos hi]
        constructor
        · show s.debate_rounds ≤ 3
          exact h1
        · intro n2 hn2
          simp only [routeNext, route_after_chief_editor] at hn2
          simp at hn2
          subst hn2
          unfold Inv
          refine ⟨h1, ?_, ?_, ?_, ?_, ?_⟩ <;> simp <;> omega
      · rw [if_neg hi]
        by_cases hr : s.current_step = "review"
        · have hle2 := h2 hr
          rw [if_pos hr]
          by_cases hq : calculate_quality_score s ≥ 80
          · rw [if_pos hq]
            constructor
            · show s.debate_rounds ≤ 3
              exact h1
            · intro n2 hn2
              simp only [routeNext, route_after_chief_editor] at hn2
              simp at hn2
          · rw [if_neg hq]
            constructor
            · show s.debate_rounds + 1 ≤ 3
              omega
            · intro n2 hn2
              simp only [routeNext, route_after_chief_editor] at hn2
              by_cases hc : s.consensus_reached
              · simp [hc] at hn2
              · simp [hc] at hn2
                subst hn2
                unfold Inv
                refine ⟨?_, ?_, ?_, ?_, ?_, ?_⟩
                · show s.debate_rounds + 1 ≤ 3
                  omega
                · intro hx
                  simp at hx
                · intro hx
                  simp at hx
                · intro hx
                  simp at hx
                · intro hx
                  simp at hx
                · intro _
                  simp
        · rw [if_neg hr]
          constructor
          · exact h1
          · intro n2 hn2
            simp only [routeNext, route_after_chief_editor] at hn2
            by_cases hd : s.current_step = "data_collection"
            · have hle2 := h4 hd
              simp [hd] at hn2
              subst hn2
              unfold Inv
              exact ⟨h1, h2, h3, h4, fun _ => hle2, by simp⟩
            · by_cases hf : s.current_step = "finalization"
              · by_cases hc : s.consensus_reached
                · simp [hd, hf, hc] at hn2
                · simp [hd, hf, hc] at hn2
                  subst hn2
                  unfold Inv
                  exact ⟨h1, h2, h3, h4, by simp, fun _ => hf⟩
              · simp [hd, hf] at hn2
  | data_engineer =>
      have hle2 := h5 (Or.inl rfl)
      cases hfe : env.fetch "macro" with
      | ok d =>
          simp only [applyNode, data_engineer_node, hfe]
          constructor
          · exact h1
          · intro n2 hn2
            simp only [routeNext, Option.some.injEq] at hn2
            subst hn2
            unfold Inv
            refine ⟨h1, ?_, ?_, ?_, fun _ => hle2, ?_⟩ <;> simp
      | error e =>
          simp only [applyNode, data_engineer_node, hfe]
          constructor
          · exact h1
          · intro n2 hn2
            simp only [routeNext, Option.some.injEq] at hn2
            subst hn2
            unfold Inv
            exact ⟨h1, h2, h3, h4, fun _ => hle2, by simp⟩
  | chartist =>
      have hle2 := h5 (Or.inr (Or.inl rfl))
      cases hch : chartsFor env.render s.raw_data with
      | ok cp =>
          simp only [applyNode, chartist_node, hch]
          constructor
          · exact h1
          · intro n2 hn2
            simp only [routeNext, Option.some.injEq] at hn2
            subst hn2
            unfold Inv
            refine ⟨h1, ?_, ?_, ?_, fun _ => hle2, ?_⟩ <;> simp
      | error e =>
          simp only [applyNode, chartist_node, hch]
          constructor
          · exact h1
          · intro n2 hn2
            simp only [routeNext, Option.some.injEq] at hn2
            subst hn2
            unfold Inv
            exact ⟨h1, h2, h3, h4, fun _ => hle2, by simp⟩
  | senior_analyst =>
      have hle2 := h5 (Or.inr (Or.inr rfl))
      simp only [applyNode, senior_analyst_node]
      by_cases hk : !(env.hasOpenai || env.hasGemini)
      · rw [if_pos hk]
        constructor
        · exact h1
        · intro n2 hn2
          simp only [routeNext, Option.some.injEq] at hn2
          subst hn2
          unfold Inv
          refine ⟨h1, fun _ => hle2, ?_, ?_, ?_, ?_⟩ <;> simp
      · rw [if_neg hk]
        cases hin : env.llmInit with
        | error e =>
            simp only []
            constructor
            · exact h1
            · intro n2 hn2
              simp only [routeNext, Option.some.injEq] at hn2
              subst hn2
              unfold Inv
              exact ⟨h1, h2, h3, h4, by simp, by simp⟩
        | ok u =>
            simp only []
            by_cases hm : ((s.raw_data.lookup "macro").getD ([] : List (String × List Int))).isEmpty
            · rw [if_pos hm]
              constructor
              · exact h1
              · intro n2 hn2
                simp only [routeNext, Option.some.injEq] at hn2
                subst hn2
                unfold Inv
                refine ⟨h1, fun _ => hle2, ?_, ?_, ?_, ?_⟩ <;> simp
            · rw [if_neg hm]
              cases hg : env.llmGen ((s.raw_data.lookup "macro").getD ([] : List (String × List Int))) with
              | ok content =>
                  simp only []
                  constructor
                  · exact h1
                  · intro n2 hn2
                    simp only [routeNext, Option.some.injEq] at hn2
                    subst hn2
                    unfold Inv
                    refine ⟨h1, fun _ => hle2, ?_, ?_, ?_, ?_⟩ <;> simp
              | error e =>
                  simp only []
                  constructor
                  · exact h1
                  · intro n2 hn2
                    simp only [routeNext, Option.some.injEq] at hn2
                    subst hn2
                    unfold Inv
                    exact ⟨h1, h2, h3, h4, by simp, by simp⟩
  | debate =>
      have hf := h6 rfl
      simp only [applyNode, debate_node]
      by_cases hz : s.issues.length = 0
      · rw [if_pos hz]
        constructor
        · exact h1
        · intro n2 hn2
          simp only [routeNext, route_after_debate] at hn2
          simp at hn2
          subst hn2
          unfold Inv
          refine ⟨h1, h2, h3, h4, by simp, by simp⟩
      · rw [if_neg hz]
        by_cases hb : s.debate_rounds >= 2
        · rw [if_pos hb]
          constructor
          · exact h1
          · intro n2 hn2
            simp only [routeNext, route_after_debate] at hn2
            simp at hn2
            subst hn2
            unfold Inv
            refine ⟨h1, h2, h3, h4, by simp, by simp⟩
        · rw [if_neg hb]
          constructor
          · show s.debate_rounds + 1 <= 3
            omega
          · intro n2 hn2
            simp only [routeNext, route_after_debate] at hn2
            by_cases hc : s.consensus_reached
            · simp [hc] at hn2
              subst hn2
              unfold Inv
              refine ⟨?_, ?_, ?_, ?_, ?_, ?_⟩
              · show s.debate_rounds + 1 ≤ 3
                omega
              · intro _
                show s.debate_rounds + 1 ≤ 2
                omega
              · intro hx
                simp at hx
              · intro hx
                simp at hx
              · intro hx
                simp at hx
              · intro hx
                simp at hx
            · simp [hc] at hn2
              subst hn2
              unfold Inv
              refine ⟨?_, ?_, ?_, ?_, ?_, ?_⟩
              · show s.debate_rounds + 1 ≤ 3
                omega
              · intro _
                show s.debate_rounds + 1 ≤ 2
                omega
              · intro hx
                simp at hx
              · intro hx
                simp at hx
              · intro _
                show s.debate_rounds + 1 ≤ 2
                omega
              · intro hx
                simp at hx

lemma exec_rounds_le (env : Env) :
    ∀ (n : Node) (s t : AgentState), Exec env n s t → Inv n s → t.debate_rounds ≤ 3 := by
  intro n s t h
  induction h with
  | here n s =>
      intro hInv
      exact (inv_step env n s hInv).1
  | next n s n2 t hr ht ih =>
      intro hInv
      exact ih ((inv_step env n s hInv).2 n2 hr)

lemma inv_initial (a b c : String) : Inv Node.chief_editor (create_initial_state a b c) := by
  unfold Inv create_initial_state
  refine ⟨by simp, ?_, ?_, ?_, ?_, ?_⟩ <;> intro hx <;> simp_all

lemma wfe1 : applyNode envMock Node.chief_editor initW = wf1 := rfl

lemma wfr1 : routeNext Node.chief_editor wf1 = some Node.data_engineer := rfl

lemma wfe2 : applyNode envMock Node.data_engineer wf1 = wf2 := rfl

lemma wfr2 : routeNext Node.data_engineer wf2 = some Node.chartist := rfl

lemma wfe3 : applyNode envMock Node.chartist wf2 = wf3 := rfl

lemma wfr3 : routeNext Node.chartist wf3 = some Node.senior_analyst := rfl

lemma wfe4 : applyNode envMock Node.senior_analyst wf3 = wf4 := rfl

lemma wfr4 : routeNext Node.senior_analyst wf4 = some Node.chief_editor := rfl

lemma score_wf4 : calculate_quality_score wf4 = 60 := by
  norm_num [calculate_quality_score, wf4, wf3, wf2, wf1, initW, create_initial_state]

lemma wfe5 : applyNode envMock Node.chief_editor wf4 = wf5 := by
  have hs : wf4.current_step = "review" := rfl
  have hi : wf4.issues = [] := rfl
  have hr : wf4.debate_rounds = 0 := rfl
  have hne : wf4.current_step ≠ "initialization" := by rw [hs]; decide
  show chief_editor_node wf4 = wf5
  unfold chief_editor_node
  rw [if_neg hne, if_pos hs]
  simp only [score_wf4]
  norm_num [hi, hr, wf5, rejectIssue60]

lemma wfr5 : routeNext Node.chief_editor wf5 = some Node.debate := rfl

lemma wfe6 : applyNode envMock Node.debate wf5 = wf6 := rfl

lemma wfr6 : routeNext Node.debate wf6 = some Node.senior_analyst := rfl

lemma wfe7 : applyNode envMock Node.senior_analyst wf6 = wf7 := rfl

lemma wfr7 : routeNext Node.senior_analyst wf7 = some Node.chief_editor := rfl

lemma score_wf7 : calculate_quality_score wf7 = 60 := by
  norm_num [calculate_quality_score, wf7, wf6, wf5, wf4, wf3, wf2, wf1, initW,
    create_initial_state]

lemma wfe8 : applyNode envMock Node.chief_editor wf7 = wf8 := by
  have hs : wf7.current_step = "review" := rfl
  have hi : wf7.issues = [] := rfl
  have hr : wf7.debate_rounds = 2 := rfl
  have hne : wf7.current_step ≠ "initialization" := by rw [hs]; decide
  show chief_editor_node wf7 = wf8
  unfold chief_editor_node
  rw [if_neg hne, if_pos hs]
  simp only [score_wf7]
  norm_num [hi, hr, wf8, rejectIssue60]

/-! ### Claims -/

/-- C1 (amended): along any execution of the compiled workflow graph from
the initial state (debate_rounds = 0), the `debate_rounds` counter never
exceeds 3. (The claimed bound 2 is refuted by `C1_counterexample`: the
Reviewer rejection branch can push the counter from 2 to 3 before the
Debate step forces consensus.) -/
theorem C1_debate_rounds_never_exceed_three (env : Env)
    (task_id started_at report_period : String) (t : AgentState)
    (h : Exec env Node.chief_editor
      (create_initial_state task_id started_at report_period) t) :
    t.debate_rounds ≤ 3 :=
  exec_rounds_le env _ _ t h (inv_initial task_id started_at report_period)

/-- Witness for C1 at a concrete environment and run prefix. -/
theorem C1_debate_rounds_never_exceed_three_witness :
    (applyNode envMock Node.chief_editor (create_initial_state "t" "0" "p")).debate_rounds
      ≤ 3 :=
  C1_debate_rounds_never_exceed_three envMock "t" "0" "p" _
    (Exec.here Node.chief_editor (create_initial_state "t" "0" "p"))

/-- C1 counterexample: with all collaborators succeeding and no LLM key,
the run reaches a state whose `debate_rounds` is 3, refuting the claimed
maximum of 2. -/
theorem C1_counterexample :
    ∃ t, Exec envMock Node.chief_editor initW t ∧ 2 < t.debate_rounds := by
  refine ⟨wf8, ?_, by norm_num [wf8]⟩
  apply Exec.next _ _ Node.data_engineer _ (by rw [wfe1]; exact wfr1)
  rw [wfe1]
  apply Exec.next _ _ Node.chartist _ (by rw [wfe2]; exact wfr2)
  rw [wfe2]
  apply Exec.next _ _ Node.senior_analyst _ (by rw [wfe3]; exact wfr3)
  rw [wfe3]
  apply Exec.next _ _ Node.chief_editor _ (by rw [wfe4]; exact wfr4)
  rw [wfe4]
  apply Exec.next _ _ Node.debate _ (by rw [wfe5]; exact wfr5)
  rw [wfe5]
  apply Exec.next _ _ Node.senior_analyst _ (by rw [wfe6]; exact wfr6)
  rw [wfe6]
  apply Exec.next _ _ Node.chief_editor _ (by rw [wfe7]; exact wfr7)
  rw [wfe7]
  have h : Exec envMock Node.chief_editor wf7 (applyNode envMock Node.chief_editor wf7) :=
    Exec.here Node.chief_editor wf7
  rw [wfe8] at h
  exact h

/-- C2: the Debate step is a three-way case split: empty `issues` sets
consensus and changes nothing else; otherwise `debate_rounds` at least 2
sets consensus regardless of the issue content; otherwise it appends one
`rebuttal` message mentioning at most the first three issues, clears
`issues`, increments `debate_rounds` by one and sets `current_step` to
`review`. -/
theorem C2_debate_three_way_split (s : AgentState) :
    (s.issues = [] → debate_node s = { s with consensus_reached := true }) ∧
    (s.issues ≠ [] → 2 ≤ s.debate_rounds →
      debate_node s = { s with consensus_reached := true }) ∧
    (s.issues ≠ [] → s.debate_rounds < 2 →
      debate_node s =
        { s with
            messages := s.messages ++ [rebuttalMessage s.issues]
            issues := []
            debate_rounds := s.debate_rounds + 1
            current_step := "review" }) ∧
    (rebuttalMessage s.issues).message_type = "rebuttal" ∧
    (rebuttalMessage s.issues).content =
      "已针对以下问题进行改进: " ++ String.intercalate ", " (s.issues.take 3) := by
  refine ⟨?_, ?_, ?_, rfl, rfl⟩
  · intro h
    unfold debate_node
    rw [if_pos (by simp [h])]
  · intro h1 h2
    unfold debate_node
    rw [if_neg (by simpa [List.length_eq_zero] using h1), if_pos h2]
  · intro h1 h2
    unfold debate_node
    rw [if_neg (by simpa [List.length_eq_zero] using h1), if_neg (by omega)]

/-- Witness for C2 on a concrete empty-issues state. -/
theorem C2_debate_three_way_split_witness :
    debate_node (create_initial_state "t" "0" "p") =
      { create_initial_state "t" "0" "p" with consensus_reached := true } :=
  (C2_debate_three_way_split _).1 rfl

/-- C3: entered in the `review` phase, the Reviewer stores the computed
quality score and either (score at least 80) approves, sets consensus and
copies `reviewed_content` to `final_content`, or (score below 80) rejects,
appends one shortfall issue and increments `debate_rounds`; in both cases
it moves `current_step` to `finalization`. -/
theorem C3_reviewer_review_behavior (s : AgentState) (h : s.current_step = "review") :
    (80 ≤ calculate_quality_score s →
      chief_editor_node s =
        { s with
            quality_score := calculate_quality_score s
            approval_status := "approved"
            consensus_reached := true
            final_content := s.reviewed_content
            current_step := "finalization" }) ∧
    (calculate_quality_score s < 80 →
      chief_editor_node s =
        { s with
            quality_score := calculate_quality_score s
            approval_status := "rejected"
            issues := s.issues ++
              ["质量评分不足: " ++ fmtScore1 (calculate_quality_score s) ++ "/100"]
            debate_rounds := s.debate_rounds + 1
            current_step := "finalization" }) := by
  have hne : s.current_step ≠ "initialization" := by rw [h]; decide
  constructor
  · intro hq
    unfold chief_editor_node
    rw [if_neg hne, if_pos h]
    simp only []
    rw [if_pos hq]
  · intro hq
    unfold chief_editor_node
    rw [if_neg hne, if_pos h]
    simp only []
    rw [if_neg (not_le.mpr hq)]

/-- Witness for C3 on a concrete `review` state whose score is 30. -/
theorem C3_reviewer_review_behavior_witness :
    chief_editor_node stC3 =
      { stC3 with
          quality_score := calculate_quality_score stC3
          approval_status := "rejected"
          issues := stC3.issues ++
            ["质量评分不足: " ++ fmtScore1 (calculate_quality_score stC3) ++ "/100"]
          debate_rounds := stC3.debate_rounds + 1
          current_step := "finalization" } :=
  (C3_reviewer_review_behavior stC3 rfl).2
    (by norm_num [calculate_quality_score, stC3, create_initial_state])

/-- C4: the quality scoring function returns 100 minus the raw-data,
chart, content-length and issue-count penalties exactly as the spec states
them, clamped below at 0, and its value always lies in [0, 100]. -/
theorem C4_score_formula (s : AgentState) :
    calculate_quality_score s = spec_quality_score s ∧
    0 ≤ calculate_quality_score s ∧ calculate_quality_score s ≤ 100 := by
  refine ⟨calculate_quality_score_eq_spec s, ?_, ?_⟩
  · rw [calculate_quality_score_eq_spec s]; exact spec_quality_score_nonneg s
  · rw [calculate_quality_score_eq_spec s]; exact spec_quality_score_le_100 s

/-- C5: on the example state (1 raw module, empty charts, one 50-character
section, 1 issue) the scoring function returns exactly 45. -/
theorem C5_score_example : calculate_quality_score scoreExampleState = 45 := by
  have h50 : ("aaaaaaaaaaaaaaaaaaaaaaaaaaaaaaaaaaaaaaaaaaaaaaaaaa" : String).length = 50 := by
    decide
  norm_num [calculate_quality_score, scoreExampleState, create_initial_state, h50]

/-- C6 (amended): the Narrative Drafter sets `current_step` to `review` on
the no-credential placeholder path, the successful generation path and the
missing-data path; but when the collaborator (client construction or the
generation call) raises, it only appends the error to `errors` and
`issues` and leaves `current_step` unchanged. -/
theorem C6_drafter_sets_review (env : Env) (s : AgentState) :
    (env.hasOpenai = false → env.hasGemini = false →
      (senior_analyst_node env s).current_step = "review") ∧
    ((env.hasOpenai || env.hasGemini) = true → env.llmInit = Except.ok () →
      ((s.raw_data.lookup "macro").getD [] = ([] : ModuleData) →
        (senior_analyst_node env s).current_step = "review") ∧
      (∀ c, env.llmGen ((s.raw_data.lookup "macro").getD []) = Except.ok c →
        (senior_analyst_node env s).current_step = "review")) ∧
    (∀ e, (env.hasOpenai || env.hasGemini) = true → env.llmInit = Except.error e →
      senior_analyst_node env s =
        { s with
            errors := s.errors ++ ["文案生成失败: " ++ e]
            issues := s.issues ++ ["文案生成失败: " ++ e] }) ∧
    (∀ e, (env.hasOpenai || env.hasGemini) = true → env.llmInit = Except.ok () →
      (s.raw_data.lookup "macro").getD [] ≠ ([] : ModuleData) →
      env.llmGen ((s.raw_data.lookup "macro").getD []) = Except.error e →
      senior_analyst_node env s =
        { s with
            errors := s.errors ++ ["文案生成失败: " ++ e]
            issues := s.issues ++ ["文案生成失败: " ++ e] }) := by
  refine ⟨?_, ?_, ?_, ?_⟩
  · intro ho hg
    unfold senior_analyst_node
    rw [ho, hg]
    rfl
  · intro hk hin
    unfold senior_analyst_node
    rw [hk, hin]
    simp only [Bool.not_true, Bool.false_eq_true, if_false]
    constructor
    · intro hm
      rw [if_pos (by simp [hm])]
    · intro c hc
      by_cases hm : ((s.raw_data.lookup "macro").getD [] : ModuleData).isEmpty
      · rw [if_pos hm]
      · rw [if_neg hm, hc]
  · intro e hk hin
    unfold senior_analyst_node
    rw [hk, hin]
    simp only [Bool.not_true, Bool.false_eq_true, if_false]
  · intro e hk hin hm hg
    unfold senior_analyst_node
    rw [hk, hin]
    simp only [Bool.not_true, Bool.false_eq_true, if_false]
    rw [if_neg (by simpa [List.isEmpty_iff] using hm), hg]

/-- Witness for C6 on the no-credential path. -/
theorem C6_drafter_sets_review_witness :
    (senior_analyst_node envMock (create_initial_state "t" "0" "p")).current_step =
      "review" :=
  (C6_drafter_sets_review envMock (create_initial_state "t" "0" "p")).1 rfl rfl

/-- C6 counterexample: with a credential configured and the LLM call
raising, the Drafter leaves `current_step` at `content_generation` instead
of setting it to `review`. -/
theorem C6_counterexample :
    (senior_analyst_node envC6 stC6).current_step = "content_generation" ∧
    (senior_analyst_node envC6 stC6).current_step ≠ "review" :=
  ⟨rfl, by decide⟩

/-- C7: when the data-acquisition collaborator raises, the Data Collector
appends exactly one message to `errors` and one to `issues`, leaves
`raw_data` and `current_step` (and every other field) unchanged, and
returns normally. -/
theorem C7_fetch_failure_soft (fetch : String → Except String ModuleData) (e : String)
    (s : AgentState) (h : fetch "macro" = Except.error e) :
    data_engineer_node fetch s =
      { s with
          errors := s.errors ++ ["数据获取失败: " ++ e]
          issues := s.issues ++ ["数据获取失败: " ++ e] } := by
  unfold data_engineer_node
  rw [h]

/-- Witness for C7 with a concrete failing fetch collaborator. -/
theorem C7_fetch_failure_soft_witness :
    data_engineer_node (fun _ => Except.error "network down")
        (create_initial_state "t" "0" "p") =
      { create_initial_state "t" "0" "p" with
          errors := ["数据获取失败: network down"]
          issues := ["数据获取失败: network down"] } :=
  C7_fetch_failure_soft _ "network down" _ rfl

/-- C8: the quality score depends only on `raw_data`, `chart_paths`,
`final_content` and `issues` — two states agreeing on those four fields
get the same score — and scoring the same state twice gives the same
score. -/
theorem C8_score_purity (s t : AgentState)
    (h1 : s.raw_data = t.raw_data) (h2 : s.chart_paths = t.chart_paths)
    (h3 : s.final_content = t.final_content) (h4 : s.issues = t.issues) :
    calculate_quality_score s = calculate_quality_score t ∧
    calculate_quality_score s = calculate_quality_score s := by
  constructor
  · simp only [calculate_quality_score, h1, h2, h3, h4]
  · rfl

/-- Witness for C8 at two concrete states differing in every field the
score must ignore. -/
theorem C8_score_purity_witness :
    calculate_quality_score scoreExampleState =
      calculate_quality_score
        { scoreExampleState with
            task_id := "other", current_step := "review",
            messages := [requestMessage "p"], debate_rounds := 2,
            consensus_reached := true, quality_score := 7,
            approval_status := "approved", errors := ["e"] } :=
  (C8_score_purity _ _ rfl rfl rfl rfl).1

/-- C9: every workflow node maps the input message log to itself plus a
(possibly empty) appended suffix, and never decreases `debate_rounds`. -/
theorem C9_messages_monotone (env : Env) (n : Node) (s : AgentState) :
    (∃ suffix, (applyNode env n s).messages = s.messages ++ suffix) ∧
    s.debate_rounds ≤ (applyNode env n s).debate_rounds := by
  cases n with
  | chief_editor =>
      simp only [applyNode, chief_editor_node]
      split
      · exact ⟨⟨[requestMessage s.report_period], rfl⟩, le_refl _⟩
      · split
        · split
          · exact ⟨⟨[], (List.append_nil _).symm⟩, le_refl _⟩
          · exact ⟨⟨[], (List.append_nil _).symm⟩, Nat.le_succ _⟩
        · exact ⟨⟨[], (List.append_nil _).symm⟩, le_refl _⟩
  | data_engineer =>
      simp only [applyNode, data_engineer_node]
      split <;> exact ⟨⟨[], (List.append_nil _).symm⟩, le_refl _⟩
  | chartist =>
      simp only [applyNode, chartist_node]
      split <;> exact ⟨⟨[], (List.append_nil _).symm⟩, le_refl _⟩
  | senior_analyst =>
      simp only [applyNode, senior_analyst_node]
      split
      · exact ⟨⟨[], (List.append_nil _).symm⟩, le_refl _⟩
      · split
        · exact ⟨⟨[], (List.append_nil _).symm⟩, le_refl _⟩
        · split
          · exact ⟨⟨[], (List.append_nil _).symm⟩, le_refl _⟩
          · split <;> exact ⟨⟨[], (List.append_nil _).symm⟩, le_refl _⟩
  | debate =>
      simp only [applyNode, debate_node]
      split
      · exact ⟨⟨[], (List.append_nil _).symm⟩, le_refl _⟩
      · split
        · exact ⟨⟨[], (List.append_nil _).symm⟩, le_refl _⟩
        · exact ⟨⟨[rebuttalMessage s.issues], rfl⟩, Nat.le_succ _⟩

/-- C10: entered with `current_step` neither `initialization` nor `review`
(for example `finalization`), the Reviewer returns the state unchanged. -/
theorem C10_reviewer_frame (s : AgentState)
    (h1 : s.current_step ≠ "initialization") (h2 : s.current_step ≠ "review") :
    chief_editor_node s = s := by
  unfold chief_editor_node
  rw [if_neg h1, if_neg h2]

/-- Witness for C10 at a concrete `finalization` state. -/
theorem C10_reviewer_frame_witness :
    chief_editor_node { create_initial_state "t" "0" "p" with
      current_step := "finalization" } =
      { create_initial_state "t" "0" "p" with current_step := "finalization" } :=
  C10_reviewer_frame _ (by decide) (by decide)

end ResearchFlow
